/-
Verification of the inventory / order behaviour of the bladerunner-bot
repository (src/bot.py and src/db.py) against its natural-language
specification.

The SQLite tables of bot.py are embedded as Lean lists of rows, and each
handler's database effect is embedded as a pure function on a `DBState`
(plus the in-memory `PAYMENTS` map as part of `BotState`).  Timestamps
(`datetime.utcnow().isoformat()`, `datetime('now')`) and uuid values are
passed in as explicit string parameters.
-/
import Mathlib

namespace Bot

/-- Row of the `products` table of bot.py (`id`, `name`, `price_rub`). -/
structure Product where
  id : Nat
  name : String
  priceRub : Int
deriving DecidableEq

/-- Row of the `cart` table of bot.py (`user_id`, `product_id`, `qty`). -/
structure CartRow where
  userId : Nat
  productId : Nat
  qty : Nat
deriving DecidableEq

/-- Row of the `codes` table of bot.py
(`id`, `product_id`, `code`, `sold`, `sold_at`, `buyer_id`). -/
structure Code where
  id : Nat
  productId : Nat
  code : String
  sold : Bool
  soldAt : Option String
  buyerId : Option Nat
deriving DecidableEq

/-- Row of the `orders` table of bot.py
(`id`, `user_id`, `total_rub`, `created_at`, `details`). -/
structure OrderRec where
  id : Nat
  userId : Nat
  totalRub : Int
  createdAt : String
  details : String
deriving DecidableEq

/-- One entry of the `items` dict passed to `deliver_items_and_record`:
the key `pid` plus `{"name": ..., "qty": ..., "price": ...}`. -/
structure Item where
  pid : Nat
  name : String
  qty : Nat
  price : Int
deriving DecidableEq

/-- The SQLite database of bot.py: the four tables, plus the AUTOINCREMENT
counters for `codes.id` and `orders.id`. -/
structure DBState where
  products : List Product
  cart : List CartRow
  codes : List Code
  orders : List OrderRec
  nextCodeId : Nat
  nextOrderId : Nat
deriving DecidableEq

/-- Comparison used by `ORDER BY id` on the `codes` table. -/
def leId (a b : Code) : Prop := a.id ≤ b.id

instance : DecidableRel leId := fun a b => Nat.decLe a.id b.id

instance : IsTotal Code leId := ⟨fun a b => Nat.le_total a.id b.id⟩

instance : IsTrans Code leId := ⟨fun _ _ _ hab hbc => Nat.le_trans hab hbc⟩

/-- The rows matched by `WHERE product_id = ? AND sold = 0` — the shared
filter of the code-selection query in `deliver_items_and_record` and of the
`COUNT(*)` query in `stock_cmd`. -/
def unsoldFor (codes : List Code) (pid : Nat) : List Code :=
  codes.filter (fun c => c.productId == pid && !c.sold)

/-- The query `SELECT id, code FROM codes WHERE product_id = ? AND sold = 0
ORDER BY id LIMIT ?` of `deliver_items_and_record` (bot.py lines 229-233),
returning the selected rows. -/
def selectUnsold (codes : List Code) (pid qty : Nat) : List Code :=
  (List.insertionSort leId (unsoldFor codes pid)).take qty

/-- The statement `UPDATE codes SET sold = 1, sold_at = ?, buyer_id = ?
WHERE id = ?` of `deliver_items_and_record` (bot.py lines 243-245). -/
def markSold (now : String) (uid : Nat) (cid : Nat) (codes : List Code) : List Code :=
  codes.map (fun c =>
    if c.id == cid then { c with sold := true, soldAt := some now, buyerId := some uid }
    else c)

/-- One iteration of the per-item loop of `deliver_items_and_record`
restricted to the `codes` table: select up to `qty` unsold codes of the
product and mark each of them sold.  Returns the updated table and the
selected rows (fetched before the updates, as in the source). -/
def itemStep (now : String) (uid : Nat) (codes : List Code) (it : Item) :
    List Code × List Code :=
  let sel := selectUnsold codes it.pid it.qty
  (sel.foldl (fun cs c => markSold now uid c.id cs) codes, sel)

/-- What the per-item loop of `deliver_items_and_record` produces for one
item: the display name, the requested quantity, the `(id, code)` pairs
actually fetched and sold, and whether the shortage warning to the admin
was triggered (`len(codes_to_sell) < qty`). -/
structure ItemOut where
  name : String
  qty : Nat
  delivered : List (Nat × String)
  short : Bool
deriving DecidableEq

/-- The line appended to `lines` for one item in
`deliver_items_and_record` (bot.py line 247). -/
def itemLine (name : String) (qty : Nat) (texts : List String) : String :=
  name ++ " x" ++ toString qty ++ ": " ++
    (if texts.isEmpty then "<i>нет в наличии</i>"
     else String.intercalate ", " (texts.map (fun c => "<code>" ++ c ++ "</code>")))

/-- Accumulator step of the `for pid_str, meta in items.items()` loop of
`deliver_items_and_record`: threads the `codes` table, the running `total`
(`total += price * qty`) and the per-item outputs. -/
def deliverStep (now : String) (uid : Nat)
    (acc : List Code × Int × List ItemOut) (it : Item) :
    List Code × Int × List ItemOut :=
  let p := itemStep now uid acc.1 it
  (p.1, acc.2.1 + it.price * (it.qty : Int),
   acc.2.2 ++ [⟨it.name, it.qty, p.2.map (fun c => (c.id, c.code)),
               decide (p.2.length < it.qty)⟩])

/-- Result of `deliver_items_and_record`: the database after commit, the
per-item outputs, and the computed total. -/
structure DeliverResult where
  db : DBState
  itemOuts : List ItemOut
  total : Int
deriving DecidableEq

/-- Embedding of `deliver_items_and_record(uid, items)` (bot.py lines
216-255): for each item, select up to `qty` unsold codes of the product
(`ORDER BY id LIMIT qty`) and mark them sold; accumulate
`total += price * qty` regardless of how many codes were found; then
`INSERT INTO orders (user_id, total_rub, details)`, and
`DELETE FROM cart WHERE user_id = ?`; finally commit. -/
def deliver_items_and_record (now : String) (s : DBState) (uid : Nat)
    (items : List Item) : DeliverResult :=
  let fin := items.foldl (deliverStep now uid) (s.codes, 0, [])
  let details := String.intercalate "\n"
    (fin.2.2.map (fun o => itemLine o.name o.qty (o.delivered.map (fun d => d.2))))
  { db := { s with
      codes := fin.1,
      orders := s.orders ++ [⟨s.nextOrderId, uid, fin.2.1, now, details⟩],
      nextOrderId := s.nextOrderId + 1,
      cart := s.cart.filter (fun r => !(r.userId == uid)) },
    itemOuts := fin.2.2,
    total := fin.2.1 }

/-- The query `SELECT COUNT(*) FROM codes WHERE product_id = ? AND
sold = 0` of `stock_cmd` (bot.py line 702). -/
def stock_count (s : DBState) (pid : Nat) : Nat :=
  (unsoldFor s.codes pid).length

/-- Comparison used by `ORDER BY id DESC` on the `orders` table. -/
def geOrd (a b : OrderRec) : Prop := b.id ≤ a.id

instance : DecidableRel geOrd := fun a b => Nat.decLe b.id a.id

instance : IsTotal OrderRec geOrd := ⟨fun a b => Nat.le_total b.id a.id⟩

instance : IsTrans OrderRec geOrd := ⟨fun _ _ _ hab hbc => Nat.le_trans hbc hab⟩

/-- The query `SELECT id, user_id, total_rub, created_at FROM orders
ORDER BY id DESC LIMIT 10` of `orders_cmd` (bot.py line 723). -/
def orders_cmd (s : DBState) : List (Nat × Nat × Int × String) :=
  ((List.insertionSort geOrd s.orders).take 10).map
    (fun o => (o.id, o.userId, o.totalRub, o.createdAt))

/-- Split a string at newline characters, as `raw.splitlines()` does
(empty segments are kept here; `save_codes` discards them anyway). -/
def splitLinesAux : List Char → List Char → List (List Char)
  | [], acc => [acc.reverse]
  | c :: cs, acc =>
    if c = '\n' then acc.reverse :: splitLinesAux cs []
    else splitLinesAux cs (c :: acc)

/-- The lines of `raw.splitlines()`. -/
def splitLines (s : String) : List String :=
  (splitLinesAux s.data []).map (fun l => String.mk l)

/-- Whitespace stripping at both ends, as `l.strip()` does. -/
def stripLine (s : String) : String :=
  String.mk (((s.data.dropWhile Char.isWhitespace).reverse.dropWhile
    Char.isWhitespace).reverse)

/-- Embedding of `save_codes(product_id, raw)` (bot.py lines 676-688):
split the raw text into stripped non-empty lines, and for each line run
`INSERT OR IGNORE INTO codes (product_id, code)` — which, because of the
UNIQUE constraint on `codes.code`, inserts nothing when the payload is
already present anywhere in the table and raises no error — and increment
`saved` on every line (the `except` branch is unreachable under
OR IGNORE).  Returns the new state and the reported count. -/
def save_codes (s : DBState) (pid : Nat) (raw : String) : DBState × Nat :=
  let lns := ((splitLines raw).map stripLine).filter (fun l => !(l == ""))
  lns.foldl (fun acc cd =>
    let st := acc.1
    let st' :=
      if st.codes.any (fun c => c.code == cd) then st
      else { st with
        codes := st.codes ++ [⟨st.nextCodeId, pid, cd, false, none, none⟩],
        nextCodeId := st.nextCodeId + 1 }
    (st', acc.2 + 1)) (s, 0)

/-- One value of the in-memory `PAYMENTS` map of bot.py:
`{"user_id": int, "items": dict}`. -/
structure PayInfo where
  userId : Nat
  items : List Item
deriving DecidableEq

/-- The state shared by the bot's handlers: the SQLite database plus the
in-memory `PAYMENTS` map (`payment_id -> {"user_id", "items"}`). -/
structure BotState where
  db : DBState
  payments : List (String × PayInfo)
deriving DecidableEq

/-- Lookup `PAYMENTS.get(payment_id)`. -/
def lookupPayment (ps : List (String × PayInfo)) (paymentId : String) : Option PayInfo :=
  (ps.find? (fun p => p.1 == paymentId)).map (fun p => p.2)

/-- The query `SELECT id, name, price_rub FROM products WHERE id = ?` of
the `buy_now:` branch of `callbacks`. -/
def lookupProduct (ps : List Product) (pid : Nat) : Option Product :=
  ps.find? (fun p => p.id == pid)

/-- The buyer-facing order identifier `uuid.uuid4().hex[:8].upper()`
(bot.py line 433), a function of the fresh uuid only. -/
def makeOrderId (uuidHex : String) : String :=
  (uuidHex.take 8).toUpper

/-- Result of the `buy_now:` branch of `callbacks`: the new bot state and,
on success, the order id shown to the buyer, the total, and the provider
payment id registered in `PAYMENTS`. -/
structure BuyNowResult where
  bot : BotState
  issued : Option (String × Int × String)
deriving DecidableEq

/-- Embedding of the `buy_now:` branch of `callbacks` (bot.py lines
395-463): look the product up; if found and the payment provider call
succeeds (`payOk` models `Payment is not None` and `Payment.create` not
raising), generate the uuid-based order id, store
`PAYMENTS[payment.id] = {"user_id": uid, "items": ...}` and show the order
id to the buyer.  No table of the database is written. -/
def buy_now (s : BotState) (uid pid : Nat) (uuidHex paymentId : String)
    (payOk : Bool) : BuyNowResult :=
  match lookupProduct s.db.products pid with
  | none => ⟨s, none⟩
  | some p =>
    if payOk then
      ⟨{ s with payments :=
           (s.payments.filter (fun q => !(q.1 == paymentId))) ++
             [(paymentId, ⟨uid, [⟨p.id, p.name, 1, p.priceRub⟩]⟩)] },
       some (makeOrderId uuidHex, p.priceRub, paymentId)⟩
    else ⟨s, none⟩

/-- Result of a webhook call: the new bot state and, when delivery
happened, the recipient and the delivery result sent to them. -/
structure WebhookResult where
  bot : BotState
  sentTo : Option (Nat × DeliverResult)
deriving DecidableEq

/-- Embedding of `yk_webhook` (bot.py lines 504-535) for a parsed body:
on `payment.succeeded`, take `uid` from the metadata (`0` when absent) and
the items from `items_json` when it parses (`mdItems = some _`), else from
the `PAYMENTS` map; if both are non-trivial, run
`deliver_items_and_record`, send the codes, and pop the payment from
`PAYMENTS`.  No check that the order was already delivered is made. -/
def yk_webhook (now : String) (s : BotState) (event paymentId : String)
    (mdUid : Nat) (mdItems : Option (List Item)) : WebhookResult :=
  if event == "payment.succeeded" then
    let items : List Item :=
      match mdItems with
      | some is => is
      | none =>
        match lookupPayment s.payments paymentId with
        | some info => info.items
        | none => []
    if mdUid ≠ 0 ∧ items ≠ [] then
      let r := deliver_items_and_record now s.db mdUid items
      ⟨⟨r.db, s.payments.filter (fun q => !(q.1 == paymentId))⟩, some (mdUid, r)⟩
    else ⟨s, none⟩
  else ⟨s, none⟩

/-- Result of the manual `paid:` button: the new bot state and, when
delivery happened, the recipient and the delivery result. -/
structure PaidResult where
  bot : BotState
  delivered : Option (Nat × DeliverResult)
deriving DecidableEq

/-- Embedding of the `paid:` branch of `callbacks` (bot.py lines 466-499):
if the provider reports the payment `succeeded`, recover the buyer and
items from `PAYMENTS`, falling back to the payment metadata
(`mdParse = some (tg_user_id?, items)`, where a missing `tg_user_id`
defaults to the *caller* `cb.from_user.id`; `mdParse = none` models the
metadata-parsing exception).  If an info record results, deliver and pop
the payment.  The identity of the caller is never compared with the
buyer. -/
def paid_handler (now : String) (s : BotState) (caller : Nat)
    (paymentId payStatus : String)
    (mdParse : Option (Option Nat × List Item)) : PaidResult :=
  if payStatus == "succeeded" then
    match lookupPayment s.payments paymentId with
    | some info =>
      let r := deliver_items_and_record now s.db info.userId info.items
      ⟨⟨r.db, s.payments.filter (fun q => !(q.1 == paymentId))⟩,
       some (info.userId, r)⟩
    | none =>
      match mdParse with
      | some md =>
        let u := md.1.getD caller
        let r := deliver_items_and_record now s.db u md.2
        ⟨⟨r.db, s.payments.filter (fun q => !(q.1 == paymentId))⟩, some (u, r)⟩
      | none => ⟨s, none⟩
  else ⟨s, none⟩

/-- Iteration of `itemStep` over an arbitrary sequence of item deliveries
(each with its own timestamp and buyer) — the evolution of the `codes`
table under any sequence of `deliver_items_and_record` calls, whose
per-item effect on `codes` is exactly `itemStep`.  Also collects the log
of all selected (sold) rows, as fetched at their selling moment. -/
def runSteps : List (String × Nat × Item) → List Code → List Code × List Code
  | [], codes => (codes, [])
  | st :: steps, codes =>
    let p := itemStep st.1 st.2.1 codes st.2.2
    let q := runSteps steps p.1
    (q.1, p.2 ++ q.2)

/-- Sum of `price * qty` over the items, the total that
`deliver_items_and_record` accumulates. -/
def itemsTotal (items : List Item) : Int :=
  items.foldl (fun t it => t + it.price * (it.qty : Int)) 0

/-- Pointwise effect on one row of running the `UPDATE ... WHERE id = ?`
statement once for every selected row: a row is marked sold exactly when
its id occurs among the selected rows. -/
def gmark (now : String) (uid : Nat) (sel : List Code) (c : Code) : Code :=
  if sel.any (fun d => d.id == c.id) then
    { c with sold := true, soldAt := some now, buyerId := some uid }
  else c

/-- Every row of the table carrying this id is already sold. -/
def allSoldAt (cs : List Code) (i : Nat) : Prop :=
  ∀ c ∈ cs, c.id = i → c.sold = true

/-- Concrete single-item order, product 1 at 300₽, as built by the
`buy_now:` branch. -/
def itemA : Item := ⟨1, "$2", 1, 300⟩

/-- Concrete database: one product, two unsold codes for it. -/
def sampleDB : DBState :=
  ⟨[⟨1, "$2", 300⟩], [], [⟨1, 1, "CODE-A", false, none, none⟩,
    ⟨2, 1, "CODE-B", false, none, none⟩], [], 3, 1⟩

/-- Concrete database: one product, a single unsold code. -/
def oneDB : DBState :=
  ⟨[⟨1, "$2", 300⟩], [], [⟨1, 1, "CODE-A", false, none, none⟩], [], 2, 1⟩

/-- Concrete database: one product and no codes at all. -/
def emptyDB : DBState := ⟨[⟨1, "$2", 300⟩], [], [], [], 1, 1⟩

/-- Concrete database with cart rows for two buyers. -/
def cartDB : DBState :=
  ⟨[⟨1, "$2", 300⟩, ⟨2, "$5", 600⟩], [⟨7, 1, 1⟩, ⟨8, 2, 1⟩, ⟨7, 2, 2⟩],
   [⟨1, 1, "CODE-A", false, none, none⟩], [], 2, 1⟩

/-- Concrete bot state: `sampleDB` plus one pending payment of buyer 7. -/
def sampleBot : BotState := ⟨sampleDB, [("pay1", ⟨7, [itemA]⟩)]⟩

/-- First `payment.succeeded` webhook call for payment pay1 of buyer 7. -/
def c1First : WebhookResult :=
  yk_webhook "t1" sampleBot "payment.succeeded" "pay1" 7 (some [itemA])

/-- Retry of the same `payment.succeeded` webhook on the resulting state. -/
def c1Retry : WebhookResult :=
  yk_webhook "t2" c1First.bot "payment.succeeded" "pay1" 7 (some [itemA])

end Bot

namespace Db

/-- Row of the `cards` table of db.py (`id`, `code`, `is_sold`). -/
structure Card where
  id : Nat
  code : String
  isSold : Bool
deriving DecidableEq

/-- Embedding of `get_random_card()` (db.py lines 26-30): the query
`SELECT id, code FROM cards WHERE is_sold = 0 ORDER BY RANDOM() LIMIT 1`.
SQLite draws an independent random value per row and sorts by it; the
draw is modelled by the oracle `rnd` giving each row id its random key,
so the function may return whichever unsold card the draw puts first. -/
def get_random_card (cards : List Card) (rnd : Nat → Nat) : Option Card :=
  (List.insertionSort (fun a b => rnd a.id ≤ rnd b.id)
    (cards.filter (fun c => !c.isSold))).head?

/-- Embedding of `mark_card_as_sold(card_id)` (db.py lines 32-35). -/
def mark_card_as_sold (cards : List Card) (cardId : Nat) : List Card :=
  cards.map (fun c => if c.id == cardId then { c with isSold := true } else c)

end Db

namespace Bot

/-- The id of a row is unchanged by `gmark`. -/
theorem gmark_id (now : String) (uid : Nat) (sel : List Code) (c : Code) :
    (gmark now uid sel c).id = c.id := by
  unfold gmark; split <;> rfl

/-- The product of a row is unchanged by `gmark`. -/
theorem gmark_productId (now : String) (uid : Nat) (sel : List Code) (c : Code) :
    (gmark now uid sel c).productId = c.productId := by
  unfold gmark; split <;> rfl

/-- The payload of a row is unchanged by `gmark`. -/
theorem gmark_code (now : String) (uid : Nat) (sel : List Code) (c : Code) :
    (gmark now uid sel c).code = c.code := by
  unfold gmark; split <;> rfl

/-- The sold flag after `gmark`: marked rows become sold, others keep
their flag. -/
theorem gmark_sold (now : String) (uid : Nat) (sel : List Code) (c : Code) :
    (gmark now uid sel c).sold = (sel.any (fun d => d.id == c.id) || c.sold) := by
  unfold gmark
  cases h : sel.any (fun d => d.id == c.id) <;> simp [h]

/-- Folding the per-row `UPDATE` over the selected rows equals one map of
`gmark` over the table. -/
theorem sellLoop_eq_map (now : String) (uid : Nat) (sel : List Code) :
    ∀ codes : List Code,
      sel.foldl (fun cs c => markSold now uid c.id cs) codes
        = codes.map (gmark now uid sel) := by
  induction sel with
  | nil =>
    intro codes
    have h : gmark now uid [] = fun c : Code => c := by
      funext c; simp [gmark]
    rw [h, List.map_id']
    rfl
  | cons a sel ih =>
    intro codes
    simp only [List.foldl_cons]
    rw [ih (markSold now uid a.id codes), markSold, List.map_map]
    refine List.map_congr_left ?_
    intro c _
    by_cases h : c.id = a.id
    · simp [Function.comp, gmark, h, List.any_cons]
    · have h2 : ¬ a.id = c.id := fun e => h e.symm
      simp [Function.comp, gmark, h, h2, List.any_cons]

/-- The `codes` table after one item of the delivery loop. -/
theorem itemStep_fst (now : String) (uid : Nat) (codes : List Code) (it : Item) :
    (itemStep now uid codes it).1
      = codes.map (gmark now uid (selectUnsold codes it.pid it.qty)) := by
  simp [itemStep, sellLoop_eq_map]

/-- The rows fetched by one item of the delivery loop. -/
theorem itemStep_snd (now : String) (uid : Nat) (codes : List Code) (it : Item) :
    (itemStep now uid codes it).2 = selectUnsold codes it.pid it.qty := rfl

/-- Membership in the `WHERE product_id = ? AND sold = 0` filter. -/
theorem mem_unsoldFor (codes : List Code) (pid : Nat) (c : Code) :
    c ∈ unsoldFor codes pid ↔ c ∈ codes ∧ c.productId = pid ∧ c.sold = false := by
  simp [unsoldFor, List.mem_filter, and_assoc]

/-- A row selected for sale is an unsold row of the requested product. -/
theorem mem_selectUnsold (codes : List Code) (pid qty : Nat) (c : Code)
    (h : c ∈ selectUnsold codes pid qty) :
    c ∈ codes ∧ c.productId = pid ∧ c.sold = false := by
  have h1 : c ∈ List.insertionSort leId (unsoldFor codes pid) :=
    List.take_subset _ _ h
  have h2 : c ∈ unsoldFor codes pid := (List.mem_insertionSort leId).mp h1
  exact (mem_unsoldFor codes pid c).mp h2

/-- The selection returns `min qty available` rows (`LIMIT qty`). -/
theorem selectUnsold_length (codes : List Code) (pid qty : Nat) :
    (selectUnsold codes pid qty).length = min qty (unsoldFor codes pid).length := by
  simp [selectUnsold, List.length_take, List.length_insertionSort]

/-- Distinct row ids survive the product/sold filter. -/
theorem unsoldFor_ids_nodup (codes : List Code) (pid : Nat)
    (hN : (codes.map (fun c => c.id)).Nodup) :
    ((unsoldFor codes pid).map (fun c => c.id)).Nodup :=
  hN.sublist ((List.filter_sublist codes).map _)

/-- Distinct row ids survive sorting and `LIMIT`. -/
theorem selectUnsold_ids_nodup (codes : List Code) (pid qty : Nat)
    (hN : (codes.map (fun c => c.id)).Nodup) :
    ((selectUnsold codes pid qty).map (fun c => c.id)).Nodup := by
  have h1 : ((List.insertionSort leId (unsoldFor codes pid)).map
      (fun c => c.id)).Nodup :=
    (((List.perm_insertionSort leId (unsoldFor codes pid)).map _).nodup_iff).mpr
      (unsoldFor_ids_nodup codes pid hN)
  exact h1.sublist ((List.take_sublist _ _).map _)

end Bot

namespace Bot

/-- Ids of the codes table are unchanged by one item of the delivery
loop. -/
theorem itemStep_ids (now : String) (uid : Nat) (codes : List Code) (it : Item) :
    ((itemStep now uid codes it).1).map (fun c => c.id)
      = codes.map (fun c => c.id) := by
  rw [itemStep_fst, List.map_map]
  exact List.map_congr_left (fun c _ => gmark_id now uid _ c)

/-- Marking rows sold preserves the property that every row with a given
id is sold. -/
theorem allSoldAt_gmark (now : String) (uid : Nat) (sel cs : List Code) (i : Nat)
    (h : allSoldAt cs i) : allSoldAt (cs.map (gmark now uid sel)) i := by
  intro c hc hid
  rcases List.mem_map.mp hc with ⟨d, hd, rfl⟩
  rw [gmark_id] at hid
  rw [gmark_sold, h d hd hid, Bool.or_true]

/-- A row whose id is everywhere sold is never selected for sale. -/
theorem sel_not_of_allSold (codes : List Code) (pid qty i : Nat)
    (h : allSoldAt codes i) :
    ∀ d ∈ selectUnsold codes pid qty, d.id ≠ i := by
  intro d hd hdi
  rcases mem_selectUnsold codes pid qty d hd with ⟨hmem, _, hsold⟩
  rw [h d hmem hdi] at hsold
  cases hsold

/-- After the item step, every row carrying the id of a selected row is
sold. -/
theorem allSoldAt_after_sel (now : String) (uid : Nat) (codes : List Code)
    (it : Item) (d : Code) (hd : d ∈ selectUnsold codes it.pid it.qty) :
    allSoldAt (itemStep now uid codes it).1 d.id := by
  rw [itemStep_fst]
  intro c hc hid
  rcases List.mem_map.mp hc with ⟨e, he, rfl⟩
  rw [gmark_id] at hid
  rw [gmark_sold]
  have hany : (selectUnsold codes it.pid it.qty).any (fun x => x.id == e.id) = true :=
    List.any_eq_true.mpr ⟨d, hd, by simp [hid]⟩
  rw [hany, Bool.true_or]

/-- Once every row with a given id is sold, no later step of any delivery
sequence ever sells that id again. -/
theorem runSteps_not_delivered (steps : List (String × Nat × Item)) :
    ∀ (cs : List Code) (i : Nat), allSoldAt cs i →
      ∀ d ∈ (runSteps steps cs).2, d.id ≠ i := by
  induction steps with
  | nil =>
    intro cs i _ d hd
    simp [runSteps] at hd
  | cons st steps ih =>
    intro cs i h d hd
    simp only [runSteps] at hd
    rcases List.mem_append.mp hd with h1 | h2
    · rw [itemStep_snd] at h1
      exact sel_not_of_allSold cs st.2.2.pid st.2.2.qty i h d h1
    · refine ih _ i ?_ d h2
      rw [itemStep_fst]
      exact allSoldAt_gmark st.1 st.2.1 _ cs i h

/-- A delivery sequence never changes the ids of the codes table. -/
theorem runSteps_ids (steps : List (String × Nat × Item)) :
    ∀ cs : List Code,
      ((runSteps steps cs).1).map (fun c => c.id) = cs.map (fun c => c.id) := by
  induction steps with
  | nil => intro cs; rfl
  | cons st steps ih =>
    intro cs
    simp only [runSteps]
    rw [ih, itemStep_ids]

/-- Across any delivery sequence, the log of sold rows contains each row
id at most once: no code is ever sold twice. -/
theorem runSteps_nodup (steps : List (String × Nat × Item)) :
    ∀ cs : List Code, (cs.map (fun c => c.id)).Nodup →
      (((runSteps steps cs).2).map (fun c => c.id)).Nodup := by
  induction steps with
  | nil =>
    intro cs _
    simp [runSteps]
  | cons st steps ih =>
    intro cs hN
    simp only [runSteps, List.map_append]
    rw [List.nodup_append]
    refine ⟨selectUnsold_ids_nodup cs st.2.2.pid st.2.2.qty hN, ?_, ?_⟩
    · apply ih
      rw [itemStep_ids]
      exact hN
    · intro a ha hb
      rcases List.mem_map.mp ha with ⟨d, hd, rfl⟩
      rcases List.mem_map.mp hb with ⟨e, he, hide⟩
      have hAll : allSoldAt (itemStep st.1 st.2.1 cs st.2.2).1 d.id :=
        allSoldAt_after_sel st.1 st.2.1 cs st.2.2 d hd
      exact runSteps_not_delivered steps _ d.id hAll e he hide

/-- Every row a delivery sequence sells originates as an unsold row of
the same id and product in the initial table. -/
theorem runSteps_source (steps : List (String × Nat × Item)) :
    ∀ cs : List Code, ∀ d ∈ (runSteps steps cs).2,
      ∃ c0, c0 ∈ cs ∧ c0.id = d.id ∧ c0.productId = d.productId ∧
        c0.sold = false := by
  induction steps with
  | nil =>
    intro cs d hd
    simp [runSteps] at hd
  | cons st steps ih =>
    intro cs d hd
    simp only [runSteps] at hd
    rcases List.mem_append.mp hd with h1 | h2
    · rw [itemStep_snd] at h1
      rcases mem_selectUnsold cs st.2.2.pid st.2.2.qty d h1 with ⟨hmem, _, hsold⟩
      exact ⟨d, hmem, rfl, rfl, hsold⟩
    · rcases ih _ d h2 with ⟨c0, hc0, hid, hpid, hsold⟩
      rw [itemStep_fst] at hc0
      rcases List.mem_map.mp hc0 with ⟨e, he, rfl⟩
      refine ⟨e, he, ?_, ?_, ?_⟩
      · rw [← gmark_id st.1 st.2.1 _ e]; exact hid
      · rw [← gmark_productId st.1 st.2.1 _ e]; exact hpid
      · rw [gmark_sold] at hsold
        exact (Bool.or_eq_false_iff.mp hsold).2

/-- Across any delivery sequence, at most `N` rows of a product with `N`
initially-unsold rows are ever sold. -/
theorem runSteps_count (steps : List (String × Nat × Item)) (cs : List Code)
    (p : Nat) (hN : (cs.map (fun c => c.id)).Nodup) :
    (((runSteps steps cs).2).filter (fun d => d.productId == p)).length
      ≤ (unsoldFor cs p).length := by
  have h1 : ((((runSteps steps cs).2).filter (fun d => d.productId == p)).map
      (fun c => c.id)).Nodup :=
    (runSteps_nodup steps cs hN).sublist
      ((List.filter_sublist ((runSteps steps cs).2)).map _)
  have h2 : (((runSteps steps cs).2).filter (fun d => d.productId == p)).map
      (fun c => c.id) ⊆ (unsoldFor cs p).map (fun c => c.id) := by
    intro i hi
    rcases List.mem_map.mp hi with ⟨d, hd, rfl⟩
    have hd1 : d ∈ (runSteps steps cs).2 := List.mem_of_mem_filter hd
    have hdp : d.productId = p := by
      have := List.of_mem_filter hd
      simpa using this
    rcases runSteps_source steps cs d hd1 with ⟨c0, hc0, hid, hpid, hsold⟩
    exact List.mem_map.mpr
      ⟨c0, (mem_unsoldFor cs p c0).mpr ⟨hc0, by rw [hpid, hdp], hsold⟩, hid⟩
  calc (((runSteps steps cs).2).filter (fun d => d.productId == p)).length
      = ((((runSteps steps cs).2).filter (fun d => d.productId == p)).map
          (fun c => c.id)).length := (List.length_map _ _).symm
    _ ≤ ((unsoldFor cs p).map (fun c => c.id)).length :=
        (List.subperm_of_subset h1 h2).length_le
    _ = (unsoldFor cs p).length := List.length_map _ _

end Bot

namespace Bot

/-- The unsold rows of a product after marking the selected rows are the
previously unsold rows whose id was not selected. -/
theorem unsold_after_map (now : String) (uid : Nat) (cs sel : List Code) (p : Nat) :
    unsoldFor (cs.map (gmark now uid sel)) p
      = ((unsoldFor cs p).filter
          (fun c => !(sel.any (fun d => d.id == c.id)))).map (gmark now uid sel) := by
  unfold unsoldFor
  rw [List.filter_map, List.filter_filter]
  congr 1
  apply List.filter_congr
  intro c _
  simp only [Function.comp_apply]
  rw [gmark_productId, gmark_sold, Bool.not_or]
  cases h1 : c.productId == p <;> cases h2 : c.sold <;>
    cases h3 : sel.any (fun d => d.id == c.id) <;> simp [h1, h2, h3]

/-- Removing the selected rows from the unsold rows of a product leaves
exactly `available - selected` rows. -/
theorem filter_not_sel_length (codes : List Code) (p qty : Nat)
    (hN : (codes.map (fun c => c.id)).Nodup) :
    ((unsoldFor codes p).filter
        (fun c => !((selectUnsold codes p qty).any (fun d => d.id == c.id)))).length
      = (unsoldFor codes p).length - (selectUnsold codes p qty).length := by
  simp only [selectUnsold]
  have hperm : List.Perm (List.insertionSort leId (unsoldFor codes p))
      (unsoldFor codes p) := List.perm_insertionSort leId (unsoldFor codes p)
  have h0 : (((List.insertionSort leId (unsoldFor codes p)).take qty
      ++ (List.insertionSort leId (unsoldFor codes p)).drop qty).map
        (fun c => c.id)).Nodup := by
    rw [List.take_append_drop]
    exact ((hperm.map _).nodup_iff).mpr (unsoldFor_ids_nodup codes p hN)
  rw [List.map_append] at h0
  have hdisj := (List.nodup_append.mp h0).2.2
  have hsel_nil : ((List.insertionSort leId (unsoldFor codes p)).take qty).filter
      (fun c => !(((List.insertionSort leId (unsoldFor codes p)).take qty).any
        (fun d => d.id == c.id))) = [] := by
    apply List.filter_eq_nil_iff.mpr
    intro d hd
    have hany : ((List.insertionSort leId (unsoldFor codes p)).take qty).any
        (fun x => x.id == d.id) = true := List.any_eq_true.mpr ⟨d, hd, by simp⟩
    simp [hany]
  have hrest_self : ((List.insertionSort leId (unsoldFor codes p)).drop qty).filter
      (fun c => !(((List.insertionSort leId (unsoldFor codes p)).take qty).any
        (fun d => d.id == c.id))) =
      (List.insertionSort leId (unsoldFor codes p)).drop qty := by
    apply List.filter_eq_self.mpr
    intro e he
    cases hb : ((List.insertionSort leId (unsoldFor codes p)).take qty).any
        (fun x => x.id == e.id) with
    | false => rfl
    | true =>
      exfalso
      rcases List.any_eq_true.mp hb with ⟨d, hd, hde⟩
      have hdeq : d.id = e.id := by simpa using hde
      exact hdisj (List.mem_map.mpr ⟨d, hd, rfl⟩)
        (List.mem_map.mpr ⟨e, he, hdeq.symm⟩)
  have hlen : (((List.insertionSort leId (unsoldFor codes p)).take qty).length : Nat)
      = min qty (unsoldFor codes p).length := by
    rw [List.length_take, List.length_insertionSort]
  calc ((unsoldFor codes p).filter
        (fun c => !(((List.insertionSort leId (unsoldFor codes p)).take qty).any
          (fun d => d.id == c.id)))).length
      = (((List.insertionSort leId (unsoldFor codes p)).filter
          (fun c => !(((List.insertionSort leId (unsoldFor codes p)).take qty).any
            (fun d => d.id == c.id)))).length) := (hperm.symm.filter _).length_eq
    _ = ((((List.insertionSort leId (unsoldFor codes p)).take qty
          ++ (List.insertionSort leId (unsoldFor codes p)).drop qty).filter
          (fun c => !(((List.insertionSort leId (unsoldFor codes p)).take qty).any
            (fun d => d.id == c.id)))).length) := by rw [List.take_append_drop]
    _ = (((List.insertionSort leId (unsoldFor codes p)).drop qty).length) := by
          rw [List.filter_append, hsel_nil, hrest_self, List.nil_append]
    _ = (List.insertionSort leId (unsoldFor codes p)).length - qty :=
          List.length_drop qty _
    _ = (unsoldFor codes p).length - qty := by rw [hperm.length_eq]
    _ = (unsoldFor codes p).length
          - ((List.insertionSort leId (unsoldFor codes p)).take qty).length := by
          rw [hlen]; omega

/-- The available count of a product drops by exactly the number of rows
sold for it in one item of the delivery loop. -/
theorem unsold_after_itemStep (now : String) (uid : Nat) (cs : List Code)
    (it : Item) (hN : (cs.map (fun c => c.id)).Nodup) :
    (unsoldFor (itemStep now uid cs it).1 it.pid).length
      = (unsoldFor cs it.pid).length - (selectUnsold cs it.pid it.qty).length := by
  rw [itemStep_fst, unsold_after_map, List.length_map,
    filter_not_sel_length cs it.pid it.qty hN]

end Bot

namespace Bot

/-- Unfolding of the items total over a cons cell. -/
theorem itemsTotal_aux (items : List Item) :
    ∀ t : Int, items.foldl (fun u it => u + it.price * (it.qty : Int)) t
      = t + itemsTotal items := by
  induction items with
  | nil =>
    intro t
    simp [itemsTotal]
  | cons a items ih =>
    intro t
    simp only [List.foldl_cons, itemsTotal] at *
    rw [ih (t + a.price * (a.qty : Int)), ih (0 + a.price * (a.qty : Int))]
    ring

/-- The accumulated total of the delivery loop is the starting total plus
the full `price * qty` sum over the items. -/
theorem deliver_foldl_total (now : String) (uid : Nat) (items : List Item) :
    ∀ acc : List Code × Int × List ItemOut,
      (items.foldl (deliverStep now uid) acc).2.1 = acc.2.1 + itemsTotal items := by
  induction items with
  | nil =>
    intro acc
    simp [itemsTotal]
  | cons a items ih =>
    intro acc
    simp only [List.foldl_cons]
    rw [ih (deliverStep now uid acc a)]
    have h1 : (deliverStep now uid acc a).2.1
        = acc.2.1 + a.price * (a.qty : Int) := rfl
    have h2 : itemsTotal (a :: items)
        = a.price * (a.qty : Int) + itemsTotal items := by
      show (a :: items).foldl (fun u it => u + it.price * (it.qty : Int)) 0
          = a.price * (a.qty : Int) + itemsTotal items
      rw [List.foldl_cons, itemsTotal_aux items]
      ring
    rw [h1, h2]
    ring

/-- Every per-item output of the delivery loop delivers at most the
requested quantity. -/
theorem deliver_foldl_outs (now : String) (uid : Nat) (items : List Item) :
    ∀ acc : List Code × Int × List ItemOut,
      (∀ o ∈ acc.2.2, o.delivered.length ≤ o.qty) →
      ∀ o ∈ (items.foldl (deliverStep now uid) acc).2.2,
        o.delivered.length ≤ o.qty := by
  induction items with
  | nil =>
    intro acc h o ho
    exact h o ho
  | cons a items ih =>
    intro acc h o ho
    simp only [List.foldl_cons] at ho
    refine ih (deliverStep now uid acc a) ?_ o ho
    intro o' ho'
    rcases List.mem_append.mp ho' with h1 | h2
    · exact h o' h1
    · have he : o' = ⟨a.name, a.qty,
          (itemStep now uid acc.1 a).2.map (fun c => (c.id, c.code)),
          decide ((itemStep now uid acc.1 a).2.length < a.qty)⟩ := by
        simpa using h2
      rw [he]
      show ((itemStep now uid acc.1 a).2.map (fun c => (c.id, c.code))).length ≤ a.qty
      rw [List.length_map, itemStep_snd, selectUnsold_length]
      exact Nat.min_le_left _ _

end Bot

namespace Bot

/-- C1: the code violates the claim.  With two unsold codes in stock and a
pending payment of buyer 7, a first `payment.succeeded` webhook delivers
CODE-A; a retried webhook for the *same* payment does not fail with
`InvalidStateError`/`None` — it delivers again (selling CODE-B), inserts a
second order row, and leaves two codes sold for one payment, because the
metadata path rebuilds the items and no delivered-check exists. -/
theorem C1_webhook_retry_redelivers :
    (c1First.sentTo.map (fun r => r.2.itemOuts.map
        (fun o => o.delivered.map (fun d => d.2))) = some [["CODE-A"]])
    ∧ (c1Retry.sentTo.map (fun r => r.2.itemOuts.map
        (fun o => o.delivered.map (fun d => d.2))) = some [["CODE-B"]])
    ∧ c1Retry.bot.db.orders.length = 2
    ∧ (c1Retry.bot.db.codes.filter (fun c => c.sold)).length = 2 := by
  decide

/-- C2 counterexample: after the single code of product 1 is sold, the
next purchase attempt does not observe any `OutOfStockError`: the
operation completes, delivers no code, and still records a second order
row. -/
theorem C2_exhausted_attempt_not_error :
    let r1 := deliver_items_and_record "t1" oneDB 7 [itemA]
    let r2 := deliver_items_and_record "t2" r1.db 8 [itemA]
    (r1.itemOuts.map (fun o => o.delivered.map (fun d => d.2)) = [["CODE-A"]])
    ∧ stock_count r1.db 1 = 0
    ∧ (r2.itemOuts.map (fun o => o.delivered) = [[]])
    ∧ r2.db.orders.length = 2 := by
  decide

/-- C3 counterexample: with no code at all for product 1, the paid
delivery still creates an order record (and delivers nothing), where the
claim requires `OutOfStockError` and no order. -/
theorem C3_order_created_without_stock :
    stock_count emptyDB 1 = 0
    ∧ (deliver_items_and_record "t1" emptyDB 7 [itemA]).db.orders.length = 1
    ∧ ((deliver_items_and_record "t1" emptyDB 7 [itemA]).itemOuts.map
        (fun o => o.delivered)) = [[]] := by
  decide

/-- C4 counterexample: buyer 7 starts a purchase of the only code of
product 1 via `buy_now` and is issued an order (payment registered,
total 300), yet the stock count still reports 1, not 0 — no reservation
state exists, so initiating a purchase does not decrement availability. -/
theorem C4_reserve_leaves_count_unchanged :
    let r := buy_now ⟨oneDB, []⟩ 7 1 "deadbeefcafe" "pay9" true
    r.issued.isSome = true
    ∧ (r.issued.map (fun i => i.2.1) = some 300)
    ∧ stock_count r.bot.db 1 = 1
    ∧ stock_count oneDB 1 = 1 := by
  decide

/-- C5 counterexample: caller 99, who is not buyer 7 of payment pay1,
triggers the manual `paid:` confirmation; instead of failing without
mutation, the handler delivers CODE-A to buyer 7 and marks a code sold. -/
theorem C5_foreign_caller_triggers_delivery :
    let r := paid_handler "t1" sampleBot 99 "pay1" "succeeded" none
    (99 : Nat) ≠ 7
    ∧ (r.delivered.map (fun d => d.1) = some 7)
    ∧ (r.delivered.map (fun d => d.2.itemOuts.map
        (fun o => o.delivered.map (fun x => x.2))) = some [["CODE-A"]])
    ∧ (r.bot.db.codes.filter (fun c => c.sold)).length = 1 := by
  decide

/-- C6 counterexample: db.py selects with `ORDER BY RANDOM() LIMIT 1`;
under a draw that orders row 2 first, `get_random_card` returns the card
with id 2 although the unsold card with the lower id 1 is available — the
selection is not lowest-identifier-first on this path. -/
theorem C6_random_selects_higher_id :
    Db.get_random_card [⟨1, "CARD-A", false⟩, ⟨2, "CARD-B", false⟩]
        (fun n => 10 - n) = some ⟨2, "CARD-B", false⟩
    ∧ ((⟨1, "CARD-A", false⟩ : Db.Card).isSold = false)
    ∧ (1 : Nat) < 2 := by
  decide

/-- C7: the code violates the claim.  Uploading the payload CODE-A, which
is already present in the ledger, leaves the ledger unchanged (the
`INSERT OR IGNORE` half of the claim holds) but the upload reports
`saved = 1`: because `INSERT OR IGNORE` raises no error, the `except`
branch that was meant to skip duplicates never runs and the duplicate is
counted among the saved codes instead of being reported as skipped. -/
theorem C7_duplicate_upload_counted :
    (save_codes sampleDB 1 "CODE-A").1 = sampleDB
    ∧ (save_codes sampleDB 1 "CODE-A").2 = 1 := by
  decide

/-- C8 counterexample: after two paid deliveries the admin `/orders`
report lists the orders by their AUTOINCREMENT row ids 2 and 1 — the
consecutive database keys — not by any uuid-derived opaque identifier
(which is never stored at all). -/
theorem C8_orders_reported_by_rowid :
    let r1 := deliver_items_and_record "t1" sampleDB 7 [itemA]
    let r2 := deliver_items_and_record "t2" r1.db 7 [itemA]
    ((orders_cmd r2.db).map (fun o => o.1) = [2, 1])
    ∧ (r2.db.orders.map (fun o => o.id) = [1, 2]) := by
  decide

end Bot

namespace Bot

/-- C2 (amended): each code is sold at most once and at most `N` codes of
a product with `N` unsold codes are sold across any sequence of purchase
deliveries; once stock is exhausted the next attempt selects (and hence
delivers) no code — but the operation does not fail with any
`OutOfStockError` (see the counterexample: it still records an order). -/
theorem C2_no_double_sell (s : DBState) (steps : List (String × Nat × Item))
    (p : Nat) (now : String) (uid : Nat) (it : Item)
    (hN : (s.codes.map (fun c => c.id)).Nodup) :
    (((runSteps steps s.codes).2).map (fun c => c.id)).Nodup
    ∧ (((runSteps steps s.codes).2).filter (fun d => d.productId == p)).length
        ≤ stock_count s p
    ∧ (stock_count s it.pid = 0 → (itemStep now uid s.codes it).2 = []) := by
  refine ⟨runSteps_nodup steps s.codes hN, runSteps_count steps s.codes p hN, ?_⟩
  intro h0
  rw [itemStep_snd]
  have h1 : unsoldFor s.codes it.pid = [] := List.length_eq_zero.mp h0
  simp [selectUnsold, h1]

/-- C2 witness: concrete instance — one unsold code, one delivery step,
and an item of a product with empty stock. -/
theorem C2_no_double_sell_witness :
    (((runSteps [("t1", 7, itemA)] oneDB.codes).2).map (fun c => c.id)).Nodup
    ∧ (((runSteps [("t1", 7, itemA)] oneDB.codes).2).filter
        (fun d => d.productId == 1)).length ≤ stock_count oneDB 1
    ∧ (stock_count oneDB (⟨2, "$5", 1, 600⟩ : Item).pid = 0 →
        (itemStep "t2" 8 oneDB.codes ⟨2, "$5", 1, 600⟩).2 = []) :=
  C2_no_double_sell oneDB [("t1", 7, itemA)] 1 "t2" 8 ⟨2, "$5", 1, 600⟩ (by decide)

/-- C3 (amended): the delivery operation never fails for lack of stock;
it records exactly one order row on every invocation, also when no code
was available (an order exists without any successful code reservation). -/
theorem C3_order_always_recorded (now : String) (s : DBState) (uid : Nat)
    (items : List Item) :
    (deliver_items_and_record now s uid items).db.orders.length
      = s.orders.length + 1 := by
  simp [deliver_items_and_record]

/-- C4 (amended): the stock count counts exactly the unsold codes of the
product (it never counts a sold code); initiating a purchase (`buy_now`)
writes nothing to the database, so the count is unchanged by it; only a
paid delivery decrements the count, by exactly the number of codes sold
(`min qty available` — so delivering the only code leaves 0). -/
theorem C4_count_unsold_only (s : BotState) (uid pid : Nat)
    (uuidHex payId : String) (payOk : Bool) (now : String) (u2 : Nat) (it : Item)
    (hN : (s.db.codes.map (fun c => c.id)).Nodup) :
    (∀ c, c ∈ unsoldFor s.db.codes pid ↔
        c ∈ s.db.codes ∧ c.productId = pid ∧ c.sold = false)
    ∧ (buy_now s uid pid uuidHex payId payOk).bot.db = s.db
    ∧ stock_count (deliver_items_and_record now s.db u2 [it]).db it.pid
        = stock_count s.db it.pid - min it.qty (stock_count s.db it.pid) := by
  refine ⟨fun c => mem_unsoldFor s.db.codes pid c, ?_, ?_⟩
  · unfold buy_now
    cases h : lookupProduct s.db.products pid with
    | none => rfl
    | some p => cases payOk <;> rfl
  · have h1 : (deliver_items_and_record now s.db u2 [it]).db.codes
        = (itemStep now u2 s.db.codes it).1 := rfl
    show (unsoldFor (deliver_items_and_record now s.db u2 [it]).db.codes it.pid).length
        = stock_count s.db it.pid - min it.qty (stock_count s.db it.pid)
    rw [h1, unsold_after_itemStep now u2 s.db.codes it hN, selectUnsold_length]
    rfl

/-- C4 witness: concrete instance on the sample database. -/
theorem C4_count_unsold_only_witness :
    ((⟨1, 1, "CODE-A", false, none, none⟩ : Code) ∈ unsoldFor sampleBot.db.codes 1 ↔
        (⟨1, 1, "CODE-A", false, none, none⟩ : Code) ∈ sampleBot.db.codes
          ∧ (⟨1, 1, "CODE-A", false, none, none⟩ : Code).productId = 1
          ∧ (⟨1, 1, "CODE-A", false, none, none⟩ : Code).sold = false)
    ∧ (buy_now sampleBot 7 1 "u1" "p1" true).bot.db = sampleBot.db
    ∧ stock_count (deliver_items_and_record "t1" sampleBot.db 7 [itemA]).db itemA.pid
        = stock_count sampleBot.db itemA.pid
          - min itemA.qty (stock_count sampleBot.db itemA.pid) :=
  ⟨(C4_count_unsold_only sampleBot 7 1 "u1" "p1" true "t1" 7 itemA (by decide)).1 _,
   (C4_count_unsold_only sampleBot 7 1 "u1" "p1" true "t1" 7 itemA (by decide)).2.1,
   (C4_count_unsold_only sampleBot 7 1 "u1" "p1" true "t1" 7 itemA (by decide)).2.2⟩

/-- C5 (amended): the manual confirmation handler performs no ownership
check at all: when the payment is known, its outcome is identical for any
two callers, and it delivers to the buyer stored with the payment (not to
the caller), mutating the database — it does not fail for a foreign
caller. -/
theorem C5_no_ownership_check (now : String) (s : BotState) (a b : Nat)
    (payId : String) (mdParse : Option (Option Nat × List Item)) (info : PayInfo)
    (hp : lookupPayment s.payments payId = some info) :
    paid_handler now s a payId "succeeded" mdParse
      = paid_handler now s b payId "succeeded" mdParse
    ∧ (paid_handler now s a payId "succeeded" mdParse).delivered
        = some (info.userId, deliver_items_and_record now s.db info.userId info.items) := by
  unfold paid_handler
  simp [hp]

/-- C5 witness: callers 99 and 100 on the sample payment of buyer 7. -/
theorem C5_no_ownership_check_witness :
    paid_handler "t1" sampleBot 99 "pay1" "succeeded" none
      = paid_handler "t1" sampleBot 100 "pay1" "succeeded" none
    ∧ (paid_handler "t1" sampleBot 99 "pay1" "succeeded" none).delivered
        = some (7, deliver_items_and_record "t1" sampleBot.db 7 [itemA]) :=
  C5_no_ownership_check "t1" sampleBot 99 100 "pay1" none ⟨7, [itemA]⟩ (by decide)

/-- C6 (amended): in `deliver_items_and_record` the selection is FIFO —
every selected code's id is at most the id of every unsold code of the
product left unselected; the db.py helper `get_random_card`, however,
picks a random unsold card, not the lowest id (see the counterexample). -/
theorem C6_deliver_selection_fifo (codes : List Code) (pid qty : Nat) (c d : Code)
    (hc : c ∈ selectUnsold codes pid qty) (hd : d ∈ codes)
    (hdp : d.productId = pid) (hds : d.sold = false)
    (hdn : d ∉ selectUnsold codes pid qty) :
    c.id ≤ d.id := by
  have hdA : d ∈ List.insertionSort leId (unsoldFor codes pid) :=
    (List.mem_insertionSort leId).mpr ((mem_unsoldFor codes pid d).mpr ⟨hd, hdp, hds⟩)
  have hsplit := List.take_append_drop qty (List.insertionSort leId (unsoldFor codes pid))
  have hdd : d ∈ (List.insertionSort leId (unsoldFor codes pid)).drop qty := by
    have hmem : d ∈ (List.insertionSort leId (unsoldFor codes pid)).take qty
        ++ (List.insertionSort leId (unsoldFor codes pid)).drop qty := by
      rw [hsplit]; exact hdA
    rcases List.mem_append.mp hmem with h1 | h2
    · exact absurd h1 hdn
    · exact h2
  have hpw : List.Pairwise leId
      ((List.insertionSort leId (unsoldFor codes pid)).take qty
        ++ (List.insertionSort leId (unsoldFor codes pid)).drop qty) := by
    rw [hsplit]
    exact List.sorted_insertionSort leId (unsoldFor codes pid)
  exact (List.pairwise_append.mp hpw).2.2 c hc d hdd

/-- C6 witness: with two unsold codes and `LIMIT 1`, the selected code
(id 1) precedes the unselected one (id 2). -/
theorem C6_deliver_selection_fifo_witness :
    (⟨1, 1, "CODE-A", false, none, none⟩ : Code).id
      ≤ (⟨2, 1, "CODE-B", false, none, none⟩ : Code).id :=
  C6_deliver_selection_fifo sampleDB.codes 1 1
    ⟨1, 1, "CODE-A", false, none, none⟩ ⟨2, 1, "CODE-B", false, none, none⟩
    (by decide) (by decide) (by decide) (by decide) (by decide)

/-- C8 (amended): the buyer-facing order id issued by `buy_now` is
`uuid.uuid4().hex[:8].upper()` — a function of the fresh uuid alone,
independent of the database — but it is never persisted: order rows are
keyed by the AUTOINCREMENT counter (`nextOrderId`, incremented by one per
order) and the `/orders` report lists exactly those sequential row ids. -/
theorem C8_order_ids (s : BotState) (uid pid : Nat) (uuidHex payId : String)
    (payOk : Bool) (now : String) (s2 : DBState) (u : Nat) (items : List Item) :
    ((buy_now s uid pid uuidHex payId payOk).issued.map (fun i => i.1)
      = if (lookupProduct s.db.products pid).isSome && payOk
        then some (makeOrderId uuidHex) else none)
    ∧ ((deliver_items_and_record now s2 u items).db.orders.map
        (fun o => o.id)).getLast? = some s2.nextOrderId
    ∧ (deliver_items_and_record now s2 u items).db.nextOrderId = s2.nextOrderId + 1
    ∧ (orders_cmd s2).map (fun o => o.1)
      = ((List.insertionSort geOrd s2.orders).take 10).map (fun o => o.id) := by
  refine ⟨?_, ?_, rfl, ?_⟩
  · unfold buy_now
    cases h : lookupProduct s.db.products pid with
    | none => simp [h]
    | some p => cases payOk <;> simp [h]
  · simp [deliver_items_and_record]
  · show (((List.insertionSort geOrd s2.orders).take 10).map
        (fun o => (o.id, o.userId, o.totalRub, o.createdAt))).map (fun o => o.1)
      = ((List.insertionSort geOrd s2.orders).take 10).map (fun o => o.id)
    rw [List.map_map]
    rfl

/-- C9 (confirmed): the recorded order total is always the full
`price * qty` sum over the requested items — it is never reduced when
fewer codes were available — while each item delivers at most the
requested quantity (only the codes actually found). -/
theorem C9_total_full_price (now : String) (s : DBState) (uid : Nat)
    (items : List Item) :
    (deliver_items_and_record now s uid items).total = itemsTotal items
    ∧ ((deliver_items_and_record now s uid items).db.orders.map
        (fun o => o.totalRub)).getLast? = some (itemsTotal items)
    ∧ ∀ o ∈ (deliver_items_and_record now s uid items).itemOuts,
        o.delivered.length ≤ o.qty := by
  have htot : (items.foldl (deliverStep now uid) (s.codes, 0, [])).2.1
      = itemsTotal items := by
    rw [deliver_foldl_total]
    simp
  refine ⟨htot, ?_, ?_⟩
  · simp [deliver_items_and_record, htot]
  · intro o ho
    refine deliver_foldl_outs now uid items (s.codes, 0, []) ?_ o ho
    intro o' h'
    simp at h'

/-- C9 witness: a delivery with empty stock still records the full total
of the requested item. -/
theorem C9_total_full_price_witness :
    (deliver_items_and_record "t1" emptyDB 7 [itemA]).total = itemsTotal [itemA] :=
  (C9_total_full_price "t1" emptyDB 7 [itemA]).1

/-- C10 (confirmed): every delivery deletes exactly the buyer's cart rows
— all of them, whatever items were delivered (also for a buy-now purchase
not assembled from the cart) — and leaves other buyers' rows in place. -/
theorem C10_cart_wiped (now : String) (s : DBState) (uid : Nat)
    (items : List Item) :
    (∀ r ∈ (deliver_items_and_record now s uid items).db.cart, r.userId ≠ uid)
    ∧ (∀ r ∈ s.cart, r.userId ≠ uid →
        r ∈ (deliver_items_and_record now s uid items).db.cart) := by
  constructor
  · intro r hr
    have hr' : r ∈ s.cart.filter (fun q => !(q.userId == uid)) := hr
    have hq := List.of_mem_filter hr'
    simpa using hq
  · intro r hr hne
    show r ∈ s.cart.filter (fun q => !(q.userId == uid))
    exact List.mem_filter.mpr ⟨hr, by simpa using hne⟩

/-- C10 witness: buyer 7's unrelated cart rows are wiped by a buy-now
delivery of product 1, while buyer 8's row survives. -/
theorem C10_cart_wiped_witness :
    (⟨7, 2, 2⟩ : CartRow) ∉ (deliver_items_and_record "t1" cartDB 7 [itemA]).db.cart
    ∧ (⟨8, 2, 1⟩ : CartRow) ∈ (deliver_items_and_record "t1" cartDB 7 [itemA]).db.cart :=
  ⟨fun h => (C10_cart_wiped "t1" cartDB 7 [itemA]).1 ⟨7, 2, 2⟩ h rfl,
   (C10_cart_wiped "t1" cartDB 7 [itemA]).2 ⟨8, 2, 1⟩ (by decide) (by decide)⟩

end Bot
